import Mathlib

/-
Verification of the live-stream connection and fan-out subsystem of the
sayhelo backend (src/backend/server.py).

The embedding below follows the Python source closely:

  * StreamConnectionManager (server.py, class StreamConnectionManager):
    two dictionaries keyed by channel name, one mapping a channel to the
    set of connected websockets (modelled as a duplicate-free list of
    session identifiers), one mapping a channel to the cached viewer
    count (a Python int, modelled as Int).
  * connect / disconnect / broadcast / get_viewer_count translate the
    four methods statement by statement.
  * The REST handlers create_stream, end_stream, get_stream_chat and the
    websocket handler stream_chat_websocket are translated as pure
    state-passing functions; the MongoDB collections db.streams and
    db.stream_messages are modelled as lists of documents, find_one as
    List.find?, update_one as an update of the first matching document,
    insert_one as appending to the list.
-/

namespace SayHelo

/-- Update one key of a string-keyed partial map (a Python dict); the value
none models absence of the key (del). -/
def mapUpd {α : Type} (f : String → Option α) (k : String) (v : Option α) :
    String → Option α :=
  fun x => if x = k then v else f x

/-- The two dictionaries of StreamConnectionManager (server.py:710-713).
A Python set of websockets is modelled as a duplicate-free list of session
identifiers (Nat); the viewer counter is a Python int. -/
structure StreamConnectionManager where
  active_connections : String → Option (List Nat)
  stream_viewers : String → Option Int

/-- The state built by StreamConnectionManager.__init__: both dicts empty. -/
def emptyManager : StreamConnectionManager :=
  { active_connections := fun _ => none, stream_viewers := fun _ => none }

/-- Python set.add: inserts the element only if it is not already present. -/
def setAdd (s : List Nat) (w : Nat) : List Nat :=
  if w ∈ s then s else s ++ [w]

/-- StreamConnectionManager.connect (server.py:715-721): create the empty
membership set and a zero count on first join of the channel, then add the
websocket to the set and increment the count.  After the first step both
keys are present, so the getD defaults are never exercised on states the
class itself produces. -/
def connect (m : StreamConnectionManager) (c : String) (w : Nat) :
    StreamConnectionManager :=
  let m1 : StreamConnectionManager :=
    match m.active_connections c with
    | none =>
        { active_connections := mapUpd m.active_connections c (some [])
          stream_viewers := mapUpd m.stream_viewers c (some 0) }
    | some _ => m
  { active_connections :=
      mapUpd m1.active_connections c
        (some (setAdd ((m1.active_connections c).getD []) w))
    stream_viewers :=
      mapUpd m1.stream_viewers c
        (some (((m1.stream_viewers c).getD 0) + 1)) }

/-- StreamConnectionManager.disconnect (server.py:723-729): if the channel
is registered, discard the websocket from the set, set the count to
max(0, stream_viewers.get(channel, 1) - 1), and if the set became empty
delete both entries.  Python set.discard removes the element if present
and is a no-op otherwise, which for a duplicate-free list is the filter
below. -/
def disconnect (m : StreamConnectionManager) (c : String) (w : Nat) :
    StreamConnectionManager :=
  match m.active_connections c with
  | none => m
  | some s =>
      let s' := s.filter (fun x => x != w)
      let v' : Int := max 0 ((m.stream_viewers c).getD 1 - 1)
      if s'.isEmpty then
        { active_connections := mapUpd m.active_connections c none
          stream_viewers := mapUpd m.stream_viewers c none }
      else
        { active_connections := mapUpd m.active_connections c (some s')
          stream_viewers := mapUpd m.stream_viewers c (some v') }

/-- StreamConnectionManager.broadcast (server.py:731-740): iterate over the
channel's sessions, attempting the send to each one independently; a send
that raises (bad w = true) is caught by the bare except and the session is
collected, and after the pass every collected session is disconnected.
Returns the new manager state together with the list of sessions that were
actually delivered to.  The function is total: no failure escapes to the
caller, exactly as the bare except in the source. -/
def broadcast (m : StreamConnectionManager) (c : String) (bad : Nat → Bool) :
    StreamConnectionManager × List Nat :=
  match m.active_connections c with
  | none => (m, [])
  | some conns =>
      let delivered := conns.filter (fun w => !(bad w))
      let failed := conns.filter (fun w => bad w)
      (failed.foldl (fun acc w => disconnect acc c w) m, delivered)

/-- StreamConnectionManager.get_viewer_count (server.py:742-743):
stream_viewers.get(channel, 0). -/
def get_viewer_count (m : StreamConnectionManager) (c : String) : Int :=
  (m.stream_viewers c).getD 0

/-- The membership set of a channel, read as the empty set for an
unregistered channel. -/
def members (m : StreamConnectionManager) (c : String) : List Nat :=
  (m.active_connections c).getD []

/-- The state invariant maintained by the connection manager: for every
channel either both dictionaries lack the key, or both have it, the
membership set is non-empty and duplicate-free, and the cached count is
non-negative. -/
def Inv (m : StreamConnectionManager) : Prop :=
  ∀ ch : String,
    (m.active_connections ch = none ∧ m.stream_viewers ch = none) ∨
    (∃ s v, m.active_connections ch = some s ∧ m.stream_viewers ch = some v ∧
      s ≠ [] ∧ s.Nodup ∧ 0 ≤ v)

lemma mapUpd_self {α : Type} (f : String → Option α) (k : String) (v : Option α) :
    mapUpd f k v k = v := by
  simp [mapUpd]

lemma mapUpd_ne {α : Type} (f : String → Option α) (k : String) (v : Option α)
    (x : String) (h : x ≠ k) : mapUpd f k v x = f x := by
  simp [mapUpd, h]

lemma setAdd_ne_nil (s : List Nat) (w : Nat) : setAdd s w ≠ [] := by
  unfold setAdd
  split
  · rename_i hw
    intro h
    subst h
    cases hw
  · simp

lemma setAdd_nodup (s : List Nat) (w : Nat) (h : s.Nodup) : (setAdd s w).Nodup := by
  unfold setAdd
  split
  · exact h
  · rename_i hw
    simp [List.nodup_append, h]
    exact hw

lemma setAdd_of_not_mem {s : List Nat} {w : Nat} (h : w ∉ s) :
    setAdd s w = s ++ [w] := by
  simp [setAdd, h]

lemma filter_ne_of_not_mem (s : List Nat) (w : Nat) (h : w ∉ s) :
    s.filter (fun x => x != w) = s := by
  apply List.filter_eq_self.mpr
  intro a ha
  simp only [bne_iff_ne, ne_eq, decide_eq_true_eq]
  rintro rfl
  exact h ha

lemma length_filter_ne (s : List Nat) (w : Nat) (hd : s.Nodup) (hw : w ∈ s) :
    (s.filter (fun x => x != w)).length + 1 = s.length := by
  induction s with
  | nil => cases hw
  | cons a t ih =>
      rcases List.mem_cons.mp hw with rfl | hwt
      · have hnt : w ∉ t := (List.nodup_cons.mp hd).1
        simp [List.filter_cons, filter_ne_of_not_mem t w hnt]
      · have hd' := (List.nodup_cons.mp hd).2
        have hna : a ≠ w := by
          rintro rfl
          exact (List.nodup_cons.mp hd).1 hwt
        simpa [List.filter_cons, hna] using ih hd' hwt

lemma inv_empty : Inv emptyManager := fun _ => Or.inl ⟨rfl, rfl⟩

lemma inv_connect (m : StreamConnectionManager) (c : String) (w : Nat)
    (hm : Inv m) : Inv (connect m c w) := by
  intro ch
  by_cases hch : ch = c
  · subst hch
    cases h : m.active_connections ch with
    | none =>
        right
        refine ⟨setAdd [] w, 1, ?_, ?_, setAdd_ne_nil _ _, setAdd_nodup _ _ (by simp), ?_⟩
        · simp [connect, h, mapUpd]
        · simp [connect, h, mapUpd]
        · omega
    | some s =>
        rcases hm ch with ⟨h1, _⟩ | ⟨s', v, h1, h2, hne, hnd, hv⟩
        · rw [h] at h1; cases h1
        · rw [h] at h1
          injection h1 with h1
          subst h1
          right
          refine ⟨setAdd s w, v + 1, ?_, ?_, setAdd_ne_nil _ _, setAdd_nodup _ _ hnd, ?_⟩
          · simp [connect, h, mapUpd]
          · simp [connect, h, mapUpd, h2]
          · omega
  · rcases hm ch with ⟨h1, h2⟩ | ⟨s', v, h1, h2, hne, hnd, hv⟩
    · left
      cases h : m.active_connections c <;>
        simp [connect, h, mapUpd, hch, h1, h2]
    · right
      refine ⟨s', v, ?_, ?_, hne, hnd, hv⟩ <;>
        cases h : m.active_connections c <;>
          simp [connect, h, mapUpd, hch, h1, h2]

lemma inv_disconnect (m : StreamConnectionManager) (c : String) (w : Nat)
    (hm : Inv m) : Inv (disconnect m c w) := by
  cases h : m.active_connections c with
  | none => simpa [disconnect, h] using hm
  | some s =>
      rcases hm c with ⟨h1, _⟩ | ⟨s', v, h1, h2, hne, hnd, hv⟩
      · rw [h] at h1; cases h1
      · rw [h] at h1
        injection h1 with h1
        subst h1
        intro ch
        by_cases hch : ch = c
        · subst hch
          by_cases he : (s.filter (fun x => x != w)).isEmpty
          · left
            simp [disconnect, h, he, mapUpd]
          · right
            refine ⟨s.filter (fun x => x != w), max 0 ((m.stream_viewers ch).getD 1 - 1),
              ?_, ?_, ?_, hnd.filter _, ?_⟩
            · simp [disconnect, h, he, mapUpd]
            · simp [disconnect, h, he, mapUpd]
            · intro hnil
              rw [hnil] at he
              simp at he
            · omega
        · rcases hm ch with ⟨h1', h2'⟩ | ⟨s'', v', h1', h2', hne', hnd', hv'⟩
          · left
            by_cases he : (s.filter (fun x => x != w)).isEmpty <;>
              simp [disconnect, h, he, mapUpd, hch, h1', h2']
          · right
            refine ⟨s'', v', ?_, ?_, hne', hnd', hv'⟩ <;>
              by_cases he : (s.filter (fun x => x != w)).isEmpty <;>
                simp [disconnect, h, he, mapUpd, hch, h1', h2']

lemma inv_foldl_disconnect (c : String) (l : List Nat)
    (m : StreamConnectionManager) (hm : Inv m) :
    Inv (l.foldl (fun acc w => disconnect acc c w) m) := by
  induction l generalizing m with
  | nil => simpa using hm
  | cons a t ih =>
      simp only [List.foldl_cons]
      exact ih _ (inv_disconnect _ _ _ hm)

lemma inv_broadcast (m : StreamConnectionManager) (c : String) (bad : Nat → Bool)
    (hm : Inv m) : Inv (broadcast m c bad).1 := by
  cases h : m.active_connections c with
  | none => simpa [broadcast, h] using hm
  | some conns =>
      simp only [broadcast, h]
      exact inv_foldl_disconnect c _ m hm

lemma count_nonneg (m : StreamConnectionManager) (c : String) (hm : Inv m) :
    0 ≤ get_viewer_count m c := by
  rcases hm c with ⟨_, h2⟩ | ⟨s, v, _, h2, _, _, hv⟩
  · simp [get_viewer_count, h2]
  · simpa [get_viewer_count, h2] using hv

/-- A Join (connect) or Leave (disconnect) operation on one channel. -/
inductive ChanOp where
  | join (w : Nat)
  | leave (w : Nat)
deriving DecidableEq

def applyOp (m : StreamConnectionManager) (c : String) :
    ChanOp → StreamConnectionManager
  | ChanOp.join w => connect m c w
  | ChanOp.leave w => disconnect m c w

/-- Run a sequence of Join/Leave operations on channel c. -/
def runOps (m : StreamConnectionManager) (c : String) (ops : List ChanOp) :
    StreamConnectionManager :=
  ops.foldl (fun acc op => applyOp acc c op) m

def joinCount : List ChanOp → Nat
  | [] => 0
  | ChanOp.join _ :: rest => joinCount rest + 1
  | ChanOp.leave _ :: rest => joinCount rest

def leaveCount : List ChanOp → Nat
  | [] => 0
  | ChanOp.join _ :: rest => leaveCount rest
  | ChanOp.leave _ :: rest => leaveCount rest + 1

/-- A sequence of operations is well formed when every Join adds a session
that is not currently a member and every Leave removes a current member. -/
def wfOps (m : StreamConnectionManager) (c : String) : List ChanOp → Bool
  | [] => true
  | ChanOp.join w :: rest =>
      !(decide (w ∈ members m c)) && wfOps (connect m c w) c rest
  | ChanOp.leave w :: rest =>
      decide (w ∈ members m c) && wfOps (disconnect m c w) c rest

/-- The cached viewer count agrees with the size of the membership set. -/
def ChanSync (m : StreamConnectionManager) (c : String) : Prop :=
  get_viewer_count m c = ((members m c).length : Int)

lemma connect_step (m : StreamConnectionManager) (c : String) (w : Nat)
    (hm : Inv m) (hs : ChanSync m c) (hw : w ∉ members m c) :
    ChanSync (connect m c w) c ∧
    get_viewer_count (connect m c w) c = get_viewer_count m c + 1 := by
  cases h : m.active_connections c with
  | none =>
      have h2 : m.stream_viewers c = none := by
        rcases hm c with ⟨_, h2⟩ | ⟨s, v, h1, _, _⟩
        · exact h2
        · rw [h] at h1; cases h1
      constructor
      · simp [ChanSync, connect, h, h2, mapUpd, setAdd, get_viewer_count, members]
      · simp [connect, h, h2, mapUpd, setAdd, get_viewer_count]
  | some s =>
      rcases hm c with ⟨h1, _⟩ | ⟨s', v, h1, h2, hne, hnd, hv⟩
      · rw [h] at h1; cases h1
      · rw [h] at h1
        injection h1 with h1
        subst h1
        have hws : w ∉ s := by simpa [members, h] using hw
        have hv' : v = (s.length : Int) := by
          simpa [ChanSync, get_viewer_count, members, h, h2] using hs

        constructor
        · simp [ChanSync, connect, h, h2, mapUpd, setAdd_of_not_mem hws,
            get_viewer_count, members, hv']
        · simp [connect, h, h2, mapUpd, get_viewer_count]

lemma disconnect_step (m : StreamConnectionManager) (c : String) (w : Nat)
    (hm : Inv m) (hs : ChanSync m c) (hw : w ∈ members m c) :
    ChanSync (disconnect m c w) c ∧
    get_viewer_count (disconnect m c w) c = get_viewer_count m c - 1 := by
  cases h : m.active_connections c with
  | none =>
      exfalso
      simp [members, h] at hw
  | some s =>
      rcases hm c with ⟨h1, _⟩ | ⟨s', v, h1, h2, hne, hnd, hv⟩
      · rw [h] at h1; cases h1
      · rw [h] at h1
        injection h1 with h1
        subst h1
        have hws : w ∈ s := by simpa [members, h] using hw
        have hv' : v = (s.length : Int) := by
          simpa [ChanSync, get_viewer_count, members, h, h2] using hs
        have hlen := length_filter_ne s w hnd hws
        by_cases he : (s.filter (fun x => x != w)).isEmpty
        · have hl0 : (s.filter (fun x => x != w)).length = 0 := by
            simpa [List.isEmpty_iff_length_eq_zero] using he
          constructor
          · simp [ChanSync, disconnect, h, h2, he, mapUpd, get_viewer_count, members]
          · simp [disconnect, h, h2, he, mapUpd, get_viewer_count, hv']
            omega
        · constructor
          · simp [ChanSync, disconnect, h, h2, he, mapUpd, get_viewer_count,
              members, hv']
            omega
          · simp [disconnect, h, h2, he, mapUpd, get_viewer_count, hv']
            omega

lemma wf_run (c : String) (ops : List ChanOp) :
    ∀ m, Inv m → ChanSync m c → wfOps m c ops = true →
      Inv (runOps m c ops) ∧ ChanSync (runOps m c ops) c ∧
      get_viewer_count (runOps m c ops) c
        = get_viewer_count m c + (joinCount ops : Int) - (leaveCount ops : Int) := by
  induction ops with
  | nil =>
      intro m hm hs _
      refine ⟨hm, hs, ?_⟩
      simp [runOps, joinCount, leaveCount]
  | cons op rest ih =>
      intro m hm hs hwf
      cases op with
      | join w =>
          simp only [wfOps, Bool.and_eq_true, Bool.not_eq_true',
            decide_eq_false_iff_not] at hwf
          obtain ⟨hw, hrest⟩ := hwf
          have step := connect_step m c w hm hs hw
          have hm' := inv_connect m c w hm
          have main := ih (connect m c w) hm' step.1 hrest
          have hrw : runOps m c (ChanOp.join w :: rest)
              = runOps (connect m c w) c rest := by
            simp [runOps, applyOp]
          rw [hrw]
          refine ⟨main.1, main.2.1, ?_⟩
          rw [main.2.2, step.2]
          simp [joinCount, leaveCount]
          ring
      | leave w =>
          simp only [wfOps, Bool.and_eq_true, decide_eq_true_eq] at hwf
          obtain ⟨hw, hrest⟩ := hwf
          have step := disconnect_step m c w hm hs hw
          have hm' := inv_disconnect m c w hm
          have main := ih (disconnect m c w) hm' step.1 hrest
          have hrw : runOps m c (ChanOp.leave w :: rest)
              = runOps (disconnect m c w) c rest := by
            simp [runOps, applyOp]
          rw [hrw]
          refine ⟨main.1, main.2.1, ?_⟩
          rw [main.2.2, step.2]
          simp [joinCount, leaveCount]
          ring

lemma wfOps_append (c : String) (p q : List ChanOp) :
    ∀ m, wfOps m c (p ++ q) = true → wfOps m c p = true := by
  induction p with
  | nil =>
      intro m _
      rfl
  | cons op rest ih =>
      intro m h
      cases op with
      | join w =>
          simp only [List.cons_append, wfOps, Bool.and_eq_true] at h ⊢
          exact ⟨h.1, ih _ h.2⟩
      | leave w =>
          simp only [List.cons_append, wfOps, Bool.and_eq_true] at h ⊢
          exact ⟨h.1, ih _ h.2⟩

lemma inv_runOps (c : String) (ops : List ChanOp) :
    ∀ m, Inv m → Inv (runOps m c ops) := by
  induction ops with
  | nil => intro m hm; simpa [runOps] using hm
  | cons op rest ih =>
      intro m hm
      have : runOps m c (op :: rest) = runOps (applyOp m c op) c rest := by
        simp [runOps]
      rw [this]
      apply ih
      cases op with
      | join w => exact inv_connect m c w hm
      | leave w => exact inv_disconnect m c w hm

/-- Any manager operation, on any channel, for use in whole-state
invariants: a Join, a Leave, or a Broadcast whose sends fail on the
sessions selected by the bad predicate. -/
inductive MOp where
  | join (c : String) (w : Nat)
  | leave (c : String) (w : Nat)
  | bcast (c : String) (bad : Nat → Bool)

def applyMOp (m : StreamConnectionManager) : MOp → StreamConnectionManager
  | MOp.join c w => connect m c w
  | MOp.leave c w => disconnect m c w
  | MOp.bcast c bad => (broadcast m c bad).1

def runMOps (m : StreamConnectionManager) (ops : List MOp) :
    StreamConnectionManager :=
  ops.foldl applyMOp m

lemma inv_runMOps (ops : List MOp) :
    ∀ m, Inv m → Inv (runMOps m ops) := by
  induction ops with
  | nil => intro m hm; simpa [runMOps] using hm
  | cons op rest ih =>
      intro m hm
      have : runMOps m (op :: rest) = runMOps (applyMOp m op) rest := by
        simp [runMOps]
      rw [this]
      apply ih
      cases op with
      | join c w => exact inv_connect m c w hm
      | leave c w => exact inv_disconnect m c w hm
      | bcast c bad => exact inv_broadcast m c bad hm

/-- C1 counterexample: the claim as stated is false on the code.  After
the sequence Join(0), Leave(1) on channel c the cached count is 0 while
the membership set still has the one element 0, because disconnect
decrements the counter even when the departing session is not a member;
and after the sequence Leave(0), Join(0) the final count is 1 while
the number of Joins minus the number of Leaves clamped at 0 is 0. -/
theorem viewer_count_claim_counterexample :
    (get_viewer_count (runOps emptyManager "c" [ChanOp.join 0, ChanOp.leave 1]) "c" ≠
      ((members (runOps emptyManager "c" [ChanOp.join 0, ChanOp.leave 1]) "c").length : Int)) ∧
    (get_viewer_count (runOps emptyManager "c" [ChanOp.leave 0, ChanOp.join 0]) "c" ≠
      max 0 ((joinCount [ChanOp.leave 0, ChanOp.join 0] : Int) -
             (leaveCount [ChanOp.leave 0, ChanOp.join 0] : Int))) := by
  decide

/-- C1 (amended): the cached viewer count is never negative after any
sequence of Joins and Leaves; and for any well-formed sequence on one
channel (every Join adds a session that is not currently a member, every
Leave removes a current member) the count after every completed prefix
equals the size of the membership set and equals the number of Joins
minus the number of Leaves in that prefix. -/
theorem viewer_count_tracks_members :
    (∀ (ops : List ChanOp) (c : String),
        0 ≤ get_viewer_count (runOps emptyManager c ops) c) ∧
    (∀ (ops : List ChanOp) (c : String), wfOps emptyManager c ops = true →
      ∀ p q : List ChanOp, ops = p ++ q →
        get_viewer_count (runOps emptyManager c p) c
          = ((members (runOps emptyManager c p) c).length : Int) ∧
        get_viewer_count (runOps emptyManager c p) c
          = (joinCount p : Int) - (leaveCount p : Int)) := by
  constructor
  · intro ops c
    exact count_nonneg _ _ (inv_runOps c ops emptyManager inv_empty)
  · intro ops c hwf p q hpq
    subst hpq
    have hwfp := wfOps_append c p q emptyManager hwf
    have hsync : ChanSync emptyManager c := by
      simp [ChanSync, get_viewer_count, members, emptyManager]
    have main := wf_run c p emptyManager inv_empty hsync hwfp
    have hzero : get_viewer_count emptyManager c = 0 := by
      simp [get_viewer_count, emptyManager]
    refine ⟨main.2.1, ?_⟩
    rw [main.2.2, hzero]
    ring

/-- C1 witness: the well-formed sequence Join(0), Join(1), Leave(0) has
final count 2 - 1 = 1. -/
theorem viewer_count_tracks_members_witness :
    get_viewer_count
        (runOps emptyManager "c" [ChanOp.join 0, ChanOp.join 1, ChanOp.leave 0]) "c"
      = (joinCount [ChanOp.join 0, ChanOp.join 1, ChanOp.leave 0] : Int)
        - (leaveCount [ChanOp.join 0, ChanOp.join 1, ChanOp.leave 0] : Int) :=
  (viewer_count_tracks_members.2 [ChanOp.join 0, ChanOp.join 1, ChanOp.leave 0]
    "c" (by decide) [ChanOp.join 0, ChanOp.join 1, ChanOp.leave 0] [] rfl).2

/-- C2 counterexample: with session 0 the only member of channel c
(count 1), a Leave of the non-member session 1 leaves the membership set
at size one but drops the cached count to 0, so it does change the
channel's viewer count. -/
theorem leave_nonmember_counterexample :
    1 ∉ members (connect emptyManager "c" 0) "c" ∧
    get_viewer_count (connect emptyManager "c" 0) "c" = 1 ∧
    get_viewer_count (disconnect (connect emptyManager "c" 0) "c" 1) "c" = 0 := by
  decide

/-- C2 (amended): on a channel with no registered membership entry,
Leave (disconnect) is a complete no-op; on a registered channel, a Leave
of a session that is not a member never fails and leaves the membership
set unchanged, but it still decrements the cached viewer count, floored
at 0. -/
theorem leave_nonmember_spec (m : StreamConnectionManager) (c : String) (w : Nat)
    (hm : Inv m) :
    (m.active_connections c = none → disconnect m c w = m) ∧
    (∀ s, m.active_connections c = some s → w ∉ s →
      members (disconnect m c w) c = s ∧
      get_viewer_count (disconnect m c w) c
        = max 0 ((m.stream_viewers c).getD 1 - 1)) := by
  constructor
  · intro h
    simp [disconnect, h]
  · intro s h hw
    rcases hm c with ⟨h1, _⟩ | ⟨s', v, h1, h2, hne, hnd, hv⟩
    · rw [h] at h1; cases h1
    · rw [h] at h1
      injection h1 with h1
      subst h1
      have hfil := filter_ne_of_not_mem s w hw
      have he : (s.filter (fun x => x != w)).isEmpty = false := by
        rw [hfil]
        cases s with
        | nil => exact absurd rfl hne
        | cons a t => rfl
      constructor
      · simp [members, disconnect, h, he, mapUpd, hfil, hne]
      · simp [get_viewer_count, disconnect, h, he, mapUpd, hfil, hne]

/-- C2 witness: Leave of non-member 1 with membership set 0 keeps the
set and computes max 0 (1 - 1). -/
theorem leave_nonmember_spec_witness :
    members (disconnect (connect emptyManager "c" 0) "c" 1) "c" = [0] ∧
    get_viewer_count (disconnect (connect emptyManager "c" 0) "c" 1) "c"
      = max 0 (((connect emptyManager "c" 0).stream_viewers "c").getD 1 - 1) :=
  (leave_nonmember_spec (connect emptyManager "c" 0) "c" 1
    (inv_connect _ _ _ inv_empty)).2 [0] (by decide) (by decide)

/-- C9: a Leave that empties a channel's membership set deletes both the
membership entry and the cached count entry; consequently, after any
sequence of Joins, Leaves and Broadcasts starting from the empty manager,
no registered channel has an empty membership set. -/
theorem no_empty_channel_entries (m : StreamConnectionManager) (c : String) (w : Nat) :
    (∀ s, m.active_connections c = some s →
      s.filter (fun x => x != w) = [] →
      (disconnect m c w).active_connections c = none ∧
      (disconnect m c w).stream_viewers c = none) ∧
    (∀ (ops : List MOp) (ch : String) (s : List Nat),
      (runMOps emptyManager ops).active_connections ch = some s → s ≠ []) := by
  constructor
  · intro s h hfil
    constructor <;> simp [disconnect, h, hfil, mapUpd]
  · intro ops ch s hs
    have hinv := inv_runMOps ops emptyManager inv_empty
    rcases hinv ch with ⟨h1, _⟩ | ⟨s', v, h1, _, hne, _, _⟩
    · rw [hs] at h1; cases h1
    · rw [hs] at h1
      injection h1 with h1
      subst h1
      exact hne

/-- C9 witness: disconnecting the last member 5 of channel c removes both
dictionary entries. -/
theorem no_empty_channel_entries_witness :
    (disconnect (connect emptyManager "c" 5) "c" 5).active_connections "c" = none ∧
    (disconnect (connect emptyManager "c" 5) "c" 5).stream_viewers "c" = none :=
  (no_empty_channel_entries (connect emptyManager "c" 5) "c" 5).1 [5]
    (by decide) (by decide)

lemma not_mem_members_disconnect_self (m : StreamConnectionManager)
    (c : String) (w : Nat) : w ∉ members (disconnect m c w) c := by
  cases h : m.active_connections c with
  | none => simp [disconnect, h, members]
  | some s =>
      by_cases he : (s.filter (fun x => x != w)).isEmpty <;>
        simp [disconnect, h, he, members, mapUpd, List.mem_filter]

lemma members_disconnect_subset (m : StreamConnectionManager)
    (c : String) (w v : Nat) (hv : v ∈ members (disconnect m c w) c) :
    v ∈ members m c := by
  cases h : m.active_connections c with
  | none => simpa [disconnect, h] using hv
  | some s =>
      by_cases he : (s.filter (fun x => x != w)).isEmpty
      · simp [disconnect, h, he, members, mapUpd] at hv
      · simp [disconnect, h, he, members, mapUpd, List.mem_filter] at hv
        simp [members, h, hv.1]

lemma not_mem_members_foldl (c : String) (l : List Nat) (w : Nat) :
    ∀ m, w ∉ members m c →
      w ∉ members (l.foldl (fun a x => disconnect a c x) m) c := by
  induction l with
  | nil => intro m hm; simpa using hm
  | cons a t ih =>
      intro m hm
      simp only [List.foldl_cons]
      apply ih
      intro hmem
      exact hm (members_disconnect_subset m c a w hmem)

lemma mem_foldl_removed (c : String) (l : List Nat) (w : Nat) (hw : w ∈ l) :
    ∀ m, w ∉ members (l.foldl (fun a x => disconnect a c x) m) c := by
  induction l with
  | nil => cases hw
  | cons a t ih =>
      intro m
      simp only [List.foldl_cons]
      rcases List.mem_cons.mp hw with rfl | hwt
      · exact not_mem_members_foldl c t w (disconnect m c w)
          (not_mem_members_disconnect_self m c w)
      · exact ih hwt (disconnect m c a)

/-- C4: broadcast (server.py:731-740) is total (the bare except catches
every per-session send failure, so no error reaches the caller); it
delivers the event to exactly the sessions whose transport does not fail,
and after it returns every session whose delivery failed has been removed
from the channel's membership set. -/
theorem broadcast_fault_tolerance (m : StreamConnectionManager) (c : String)
    (bad : Nat → Bool) (s : List Nat) (h : m.active_connections c = some s) :
    (∀ w ∈ s, bad w = false → w ∈ (broadcast m c bad).2) ∧
    (∀ w ∈ (broadcast m c bad).2, w ∈ s ∧ bad w = false) ∧
    (∀ w ∈ s, bad w = true → w ∉ members (broadcast m c bad).1 c) := by
  refine ⟨?_, ?_, ?_⟩
  · intro w hw hb
    simp [broadcast, h, List.mem_filter, hw, hb]
  · intro w hw
    simpa [broadcast, h, List.mem_filter] using hw
  · intro w hw hb
    simp only [broadcast, h]
    apply mem_foldl_removed
    simp [List.mem_filter, hw, hb]

/-- C4 witness: in a channel with sessions 1 and 2 where only session 2
has a failing transport, 1 receives the event and 2 is gone from the
membership afterwards. -/
theorem broadcast_fault_tolerance_witness :
    1 ∈ (broadcast (connect (connect emptyManager "c" 1) "c" 2) "c"
          (fun w => decide (w = 2))).2 ∧
    2 ∉ members (broadcast (connect (connect emptyManager "c" 1) "c" 2) "c"
          (fun w => decide (w = 2))).1 "c" :=
  ⟨(broadcast_fault_tolerance (connect (connect emptyManager "c" 1) "c" 2) "c"
      (fun w => decide (w = 2)) [1, 2] (by decide)).1 1 (by decide) (by decide),
   (broadcast_fault_tolerance (connect (connect emptyManager "c" 1) "c" 2) "c"
      (fun w => decide (w = 2)) [1, 2] (by decide)).2.2 2 (by decide) (by decide)⟩

/-- A document of the db.streams collection (server.py:761-772), with the
ISO timestamp string abstracted to a Nat. -/
structure StreamDoc where
  id : String
  channel_name : String
  title : String
  description : String
  host_id : String
  host_username : String
  host_avatar : Option String
  viewer_count : Int
  is_live : Bool
  created_at : Nat
deriving DecidableEq

/-- A document of the db.stream_messages collection (server.py:885-892),
with the ISO timestamp string abstracted to a Nat. -/
structure MsgDoc where
  id : String
  stream_id : String
  user_id : String
  username : String
  content : String
  created_at : Nat
deriving DecidableEq

/-- The fields of the authenticated user document that the stream
endpoints read. -/
structure UserDoc where
  id : String
  username : String
  avatar : Option String
  is_banned : Bool
  is_admin : Bool

/-- Mongo update_one: rewrite the first document matching the filter. -/
def updateFirst {α : Type} (p : α → Bool) (f : α → α) : List α → List α
  | [] => []
  | x :: xs => if p x then f x :: xs else x :: updateFirst p f xs

inductive CreateErr where
  | forbiddenBanned
  | alreadyStreaming
deriving DecidableEq

/-- The Python slice stream_id[:8] (server.py:759), modelled as a prefix
of the character list. -/
def strTake (s : String) (n : Nat) : String := String.mk (s.data.take n)

lemma strTake_length (s : String) (n : Nat) :
    (strTake s n).length = min n s.length := by
  rw [strTake, String.length_mk, List.length_take]
  rfl

/-- create_stream (server.py:747-776): reject a banned host with 403,
reject a host that already has a live stream with 400, otherwise insert
exactly one new stream document with is_live true and viewer_count 0,
whose channel name is the string stream_ followed by the first eight
characters of the fresh uuid.  The Mongo collection is threaded through
explicitly; on the error paths the collection is returned as received
because the HTTPException is raised before insert_one runs. -/
def create_stream (dbS : List StreamDoc) (user : UserDoc) (title : String)
    (descr : Option String) (freshId : String) (now : Nat) :
    List StreamDoc × Except CreateErr StreamDoc :=
  if user.is_banned then (dbS, Except.error CreateErr.forbiddenBanned)
  else
    match dbS.find? (fun s => s.host_id == user.id && s.is_live) with
    | some _ => (dbS, Except.error CreateErr.alreadyStreaming)
    | none =>
        let channel := "stream_" ++ strTake freshId 8
        let doc : StreamDoc :=
          { id := freshId, channel_name := channel, title := title,
            description := descr.getD "", host_id := user.id,
            host_username := user.username, host_avatar := user.avatar,
            viewer_count := 0, is_live := true, created_at := now }
        (dbS ++ [doc], Except.ok doc)

inductive EndErr where
  | notFound
  | forbiddenNotOwner
deriving DecidableEq

/-- The outbound event shapes produced by the live-stream endpoints
(server.py:866-870, 896-903, 907-911, 843-846, 917-921). -/
inductive OutEvent where
  | viewer_joined (username : String) (viewer_count : Int)
  | viewer_left (username : String) (viewer_count : Int)
  | chat (id : String) (user_id : String) (username : String)
      (content : String) (created_at : Nat)
  | reaction (username : String) (emoji : String)
  | stream_ended (message : String)
deriving DecidableEq

/-- The externally observable steps of end_stream, in execution order. -/
inductive EndAct where
  | persistLive (stream_id : String) (value : Bool)
  | bcastEnded (channel : String) (ev : OutEvent)
deriving DecidableEq

/-- end_stream (server.py:830-848): 404 when no stream has the id, 403
when the requester is neither the host nor an admin; otherwise update the
persisted document to is_live false and only then broadcast the
stream_ended event to the stream's channel.  The returned action list
records the two effects in their execution order. -/
def end_stream (dbS : List StreamDoc) (scm : StreamConnectionManager)
    (bad : Nat → Bool) (stream_id : String) (user : UserDoc) :
    Except EndErr (List StreamDoc × StreamConnectionManager × List EndAct) :=
  match dbS.find? (fun s => s.id == stream_id) with
  | none => Except.error EndErr.notFound
  | some st =>
      if st.host_id != user.id && !user.is_admin then
        Except.error EndErr.forbiddenNotOwner
      else
        let dbS' := updateFirst (fun s => s.id == stream_id)
          (fun s => { s with is_live := false }) dbS
        let res := broadcast scm st.channel_name bad
        Except.ok (dbS', res.1,
          [EndAct.persistLive stream_id false,
           EndAct.bcastEnded st.channel_name (OutEvent.stream_ended "Stream has ended")])

lemma find_updateFirst {α : Type} (p : α → Bool) (f : α → α)
    (hp : ∀ a, p a = true → p (f a) = true) (l : List α) (a : α)
    (h : l.find? p = some a) : (updateFirst p f l).find? p = some (f a) := by
  induction l with
  | nil => cases h
  | cons x xs ih =>
      by_cases hx : p x = true
      · rw [List.find?_cons_of_pos _ hx] at h
        injection h with h
        subst h
        simp only [updateFirst]
        rw [if_pos hx, List.find?_cons_of_pos _ (hp x hx)]
      · rw [List.find?_cons_of_neg _ (by simpa using hx)] at h
        simp only [updateFirst]
        rw [if_neg hx, List.find?_cons_of_neg _ (by simpa using hx)]
        exact ih h

/-- C5: when end_stream succeeds, the persisted is_live flag is flipped to
false strictly before the StreamEnded broadcast (the action trace is the
update followed by the broadcast), and in the stream collection handed to
the broadcast step, and returned to every later reader, the stream's
document already shows is_live = false. -/
theorem end_stream_persists_before_notify (dbS : List StreamDoc)
    (scm : StreamConnectionManager) (bad : Nat → Bool) (sid : String)
    (user : UserDoc) (st : StreamDoc)
    (hfind : dbS.find? (fun s => s.id == sid) = some st)
    (hauth : st.host_id = user.id ∨ user.is_admin = true) :
    ∃ dbS' scm',
      end_stream dbS scm bad sid user = Except.ok (dbS', scm',
        [EndAct.persistLive sid false,
         EndAct.bcastEnded st.channel_name (OutEvent.stream_ended "Stream has ended")]) ∧
      (dbS'.find? (fun s => s.id == sid)).map (fun s => s.is_live) = some false := by
  have hguard : (st.host_id != user.id && !user.is_admin) = false := by
    rcases hauth with h | h <;> simp [h]
  refine ⟨updateFirst (fun s => s.id == sid)
    (fun s => { s with is_live := false }) dbS, (broadcast scm st.channel_name bad).1, ?_, ?_⟩
  · simp [end_stream, hfind, hguard]
  · have := find_updateFirst (fun s => s.id == sid)
      (fun s => { s with is_live := false }) (fun a ha => ha) dbS st hfind
    simp [this]

/-- C5 witness: a concrete one-stream collection whose host ends the
stream; after the call the persisted flag reads false and the update
precedes the broadcast in the action trace. -/
theorem end_stream_persists_before_notify_witness :
    ∃ dbS' scm',
      end_stream
        [{ id := "s1", channel_name := "stream_s1", title := "t",
           description := "", host_id := "h1", host_username := "host",
           host_avatar := none, viewer_count := 0, is_live := true,
           created_at := 0 }]
        emptyManager (fun _ => false) "s1"
        { id := "h1", username := "host", avatar := none,
          is_banned := false, is_admin := false }
        = Except.ok (dbS', scm',
            [EndAct.persistLive "s1" false,
             EndAct.bcastEnded "stream_s1" (OutEvent.stream_ended "Stream has ended")]) ∧
      (dbS'.find? (fun s => s.id == "s1")).map (fun s => s.is_live) = some false := by
  obtain ⟨dbS', scm', h1, h2⟩ :=
    end_stream_persists_before_notify
      [{ id := "s1", channel_name := "stream_s1", title := "t",
         description := "", host_id := "h1", host_username := "host",
         host_avatar := none, viewer_count := 0, is_live := true,
         created_at := 0 }]
      emptyManager (fun _ => false) "s1"
      { id := "h1", username := "host", avatar := none,
        is_banned := false, is_admin := false }
      { id := "s1", channel_name := "stream_s1", title := "t",
        description := "", host_id := "h1", host_username := "host",
        host_avatar := none, viewer_count := 0, is_live := true,
        created_at := 0 }
      (by decide) (Or.inl rfl)
  exact ⟨dbS', scm', h1, h2⟩

/-- C6: create_stream fails with 403 when the host is banned and with 400
when a live stream of the same host is already persisted, inserting
nothing in either case (the banned check runs first); on success it
appends exactly one new stream document, live and with zero viewers. -/
theorem create_stream_spec (dbS : List StreamDoc) (user : UserDoc)
    (title : String) (descr : Option String) (freshId : String) (now : Nat) :
    (user.is_banned = true →
      create_stream dbS user title descr freshId now
        = (dbS, Except.error CreateErr.forbiddenBanned)) ∧
    (user.is_banned = false →
      ∀ st, dbS.find? (fun s => s.host_id == user.id && s.is_live) = some st →
        create_stream dbS user title descr freshId now
          = (dbS, Except.error CreateErr.alreadyStreaming)) ∧
    (user.is_banned = false →
      dbS.find? (fun s => s.host_id == user.id && s.is_live) = none →
      ∃ doc, create_stream dbS user title descr freshId now
          = (dbS ++ [doc], Except.ok doc) ∧
        doc.is_live = true ∧ doc.viewer_count = 0 ∧ doc.host_id = user.id) := by
  refine ⟨?_, ?_, ?_⟩
  · intro hb
    simp [create_stream, hb]
  · intro hb st hfind
    simp [create_stream, hb, hfind]
  · intro hb hfind
    refine ⟨{ id := freshId, channel_name := "stream_" ++ strTake freshId 8,
              title := title, description := descr.getD "", host_id := user.id,
              host_username := user.username, host_avatar := user.avatar,
              viewer_count := 0, is_live := true, created_at := now },
            ?_, rfl, rfl, rfl⟩
    simp [create_stream, hb, hfind]

/-- C6 witness: an unbanned host with no live stream creates exactly one
new live stream with zero viewers. -/
theorem create_stream_spec_witness :
    ∃ doc, create_stream []
        { id := "h1", username := "host", avatar := none,
          is_banned := false, is_admin := false }
        "my stream" none "aaaaaaaa-bbbb-cccc-dddd-eeeeeeeeeeee" 7
        = ([] ++ [doc], Except.ok doc) ∧
      doc.is_live = true ∧ doc.viewer_count = 0 ∧ doc.host_id = "h1" :=
  (create_stream_spec []
    { id := "h1", username := "host", avatar := none,
      is_banned := false, is_admin := false }
    "my stream" none "aaaaaaaa-bbbb-cccc-dddd-eeeeeeeeeeee" 7).2.2 rfl rfl

/-- The descending created_at ordering used by the Mongo query
sort("created_at", -1) in get_stream_chat. -/
def msgGeCreated (a b : MsgDoc) : Prop := b.created_at ≤ a.created_at

instance : DecidableRel msgGeCreated :=
  fun a b => inferInstanceAs (Decidable (b.created_at ≤ a.created_at))

instance : IsTotal MsgDoc msgGeCreated :=
  ⟨fun a b => Nat.le_total b.created_at a.created_at⟩

instance : IsTrans MsgDoc msgGeCreated :=
  ⟨fun _ _ _ hab hbc => le_trans hbc hab⟩

/-- get_stream_chat (server.py:850-858): select the messages whose
stream_id field equals the query key, sort by created_at descending
(modelled by insertion sort, a refinement of the unspecified Mongo order
on ties), keep the first limit documents, and return them reversed, so
newest last. -/
def get_stream_chat (msgs : List MsgDoc) (stream_id : String) (limit : Nat) :
    List MsgDoc :=
  ((List.insertionSort msgGeCreated
      (msgs.filter (fun m => m.stream_id == stream_id))).take limit).reverse

lemma mem_get_stream_chat_of_le (msgs : List MsgDoc) (sid : String)
    (limit : Nat) (m : MsgDoc) (hm : m ∈ msgs) (hsid : m.stream_id = sid)
    (hlim : (msgs.filter (fun x => x.stream_id == sid)).length ≤ limit) :
    m ∈ get_stream_chat msgs sid limit := by
  have hfl : m ∈ msgs.filter (fun x => x.stream_id == sid) := by
    simp [List.mem_filter, hm, hsid]
  have hperm := List.perm_insertionSort msgGeCreated
    (msgs.filter (fun x => x.stream_id == sid))
  have hlen : (List.insertionSort msgGeCreated
      (msgs.filter (fun x => x.stream_id == sid))).length ≤ limit := by
    rw [hperm.length_eq]
    exact hlim
  have htake := List.take_of_length_le hlen
  simp only [get_stream_chat, htake, List.mem_reverse]
  exact hperm.mem_iff.mpr hfl

lemma stream_id_of_mem_get_stream_chat (msgs : List MsgDoc) (sid : String)
    (limit : Nat) (r : MsgDoc) (hr : r ∈ get_stream_chat msgs sid limit) :
    r ∈ msgs ∧ r.stream_id = sid := by
  simp only [get_stream_chat, List.mem_reverse] at hr
  have hr' := (List.take_sublist limit _).mem hr
  have hperm := List.perm_insertionSort msgGeCreated
    (msgs.filter (fun x => x.stream_id == sid))
  have := hperm.mem_iff.mp hr'
  simpa [List.mem_filter] using this

/-- C10: retrieving chat history returns at most limit messages, sorted
by created_at with the newest last; they are drawn from the stored
messages of the queried stream id and are the most recent ones: any
stored message of that stream id left out is no newer than any returned
one. -/
theorem get_stream_chat_spec (msgs : List MsgDoc) (sid : String) (limit : Nat) :
    (get_stream_chat msgs sid limit).length ≤ limit ∧
    (get_stream_chat msgs sid limit).Sorted
      (fun a b => a.created_at ≤ b.created_at) ∧
    (∀ r ∈ get_stream_chat msgs sid limit, r ∈ msgs ∧ r.stream_id = sid) ∧
    (∀ m ∈ msgs, m.stream_id = sid → m ∉ get_stream_chat msgs sid limit →
      ∀ r ∈ get_stream_chat msgs sid limit, m.created_at ≤ r.created_at) := by
  have hsorted : List.Sorted msgGeCreated
      (List.insertionSort msgGeCreated
        (msgs.filter (fun x => x.stream_id == sid))) :=
    List.sorted_insertionSort msgGeCreated _
  refine ⟨?_, ?_, ?_, ?_⟩
  · simp only [get_stream_chat, List.length_reverse, List.length_take]
    exact min_le_left _ _
  · simp only [get_stream_chat, List.Sorted]
    rw [List.pairwise_reverse]
    exact hsorted.sublist (List.take_sublist _ _)
  · exact fun r hr => stream_id_of_mem_get_stream_chat msgs sid limit r hr
  · intro m hm hsid hnot r hr
    set s := List.insertionSort msgGeCreated
      (msgs.filter (fun x => x.stream_id == sid)) with hs
    have hfl : m ∈ msgs.filter (fun x => x.stream_id == sid) := by
      simp [List.mem_filter, hm, hsid]
    have hperm := List.perm_insertionSort msgGeCreated
      (msgs.filter (fun x => x.stream_id == sid))
    have hmem_s : m ∈ s := hperm.mem_iff.mpr hfl
    have hmtake : m ∉ s.take limit := by
      intro hc
      exact hnot (by simpa [get_stream_chat, List.mem_reverse] using hc)
    have hmdrop : m ∈ s.drop limit := by
      have := (List.take_append_drop limit s) ▸ hmem_s
      rcases List.mem_append.mp this with h | h
      · exact absurd h hmtake
      · exact h
    have hrtake : r ∈ s.take limit := by
      simpa [get_stream_chat, List.mem_reverse] using hr
    have hpw : List.Pairwise msgGeCreated (s.take limit ++ s.drop limit) := by
      rw [List.take_append_drop]
      exact hsorted
    exact (List.pairwise_append.mp hpw).2.2 r hrtake m hmdrop

/-- C10 witness: three stored messages with timestamps 5, 1, 9 under the
same stream id and limit 2: the excluded message with timestamp 1 is no
newer than any returned one. -/
theorem get_stream_chat_spec_witness :
    (get_stream_chat
        [{ id := "a", stream_id := "s", user_id := "u", username := "n",
           content := "x", created_at := 5 },
         { id := "b", stream_id := "s", user_id := "u", username := "n",
           content := "y", created_at := 1 },
         { id := "c", stream_id := "s", user_id := "u", username := "n",
           content := "z", created_at := 9 }] "s" 2).length ≤ 2 ∧
    (∀ r ∈ get_stream_chat
        [{ id := "a", stream_id := "s", user_id := "u", username := "n",
           content := "x", created_at := 5 },
         { id := "b", stream_id := "s", user_id := "u", username := "n",
           content := "y", created_at := 1 },
         { id := "c", stream_id := "s", user_id := "u", username := "n",
           content := "z", created_at := 9 }] "s" 2,
      ({ id := "b", stream_id := "s", user_id := "u", username := "n",
         content := "y", created_at := 1 } : MsgDoc).created_at ≤ r.created_at) := by
  refine ⟨(get_stream_chat_spec _ "s" 2).1, ?_⟩
  exact (get_stream_chat_spec
    [{ id := "a", stream_id := "s", user_id := "u", username := "n",
       content := "x", created_at := 5 },
     { id := "b", stream_id := "s", user_id := "u", username := "n",
       content := "y", created_at := 1 },
     { id := "c", stream_id := "s", user_id := "u", username := "n",
       content := "z", created_at := 9 }] "s" 2).2.2.2
    { id := "b", stream_id := "s", user_id := "u", username := "n",
      content := "y", created_at := 1 }
    (by decide) (by decide) (by decide)

/-- The result of json.loads on an inbound text frame, as far as the
handler inspects it: either a JSON object whose relevant values are
strings, or any non-object JSON value (on which message_data.get raises
AttributeError). -/
inductive JVal where
  | obj (fields : List (String × String))
  | nonObj

/-- One occurrence at the receive point of the websocket loop: a text
frame that parses to j, a text frame that is not valid JSON (json.loads
raises), or the transport raising WebSocketDisconnect. -/
inductive Inbound where
  | msg (j : JVal)
  | badJson
  | wsDisconnect

/-- The externally observable calls of the websocket handler, in
execution order. -/
inductive Action where
  | joinA (channel : String) (w : Nat)
  | bcastA (channel : String) (ev : OutEvent)
  | dbSyncA (channel : String) (viewer_count : Int)
  | persistA (doc : MsgDoc)
  | leaveA (channel : String) (w : Nat)
deriving DecidableEq

/-- How a run of the handler over a finite inbound script ends: the
script ran out while the loop is still blocked on receive_text, the
loop raised WebSocketDisconnect and the except block ran, or some other
exception escaped the handler uncaught. -/
inductive ExitKind where
  | pending
  | disconnected
  | crashed
deriving DecidableEq

/-- The per-session constants of stream_chat_websocket: path parameters
and the transport-failure predicate used by broadcast sends. -/
structure SessionEnv where
  channel : String
  user_id : String
  username : String
  ws : Nat
  bad : Nat → Bool

/-- The shared state the handler reads and writes: the connection
manager, the two Mongo collections, and a counter standing in for the
uuid generator and the clock (each persisted message consumes one
tick). -/
structure HState where
  scm : StreamConnectionManager
  dbStreams : List StreamDoc
  dbMessages : List MsgDoc
  ctr : Nat

/-- Python dict.get on the parsed message object. -/
def jget (fields : List (String × String)) (k : String) : Option String :=
  (fields.find? (fun p => p.1 == k)).map (fun p => p.2)

/-- db.streams.update_one filtering on channel_name, setting
viewer_count (server.py:873-876 and 924-927). -/
def updateStreamViewerCount (dbS : List StreamDoc) (c : String) (n : Int) :
    List StreamDoc :=
  updateFirst (fun s => s.channel_name == c)
    (fun s => { s with viewer_count := n }) dbS

/-- The uuid for a persisted chat message, generated from the tick
counter. -/
def freshMsgId (n : Nat) : String := "uuid-" ++ toString n

/-- The loop body of stream_chat_websocket for a parsed JSON object
(server.py:883-911): a chat event builds the message document, inserts
it, then broadcasts a chat event carrying the persisted document's id,
content and created_at; a reaction event broadcasts username and emoji
(default the heart emoji) without persisting; any other type falls
through both branches and is ignored. -/
def handleObj (env : SessionEnv) (st : HState)
    (fields : List (String × String)) : HState × List Action :=
  if jget fields "type" == some "chat" then
    let doc : MsgDoc :=
      { id := freshMsgId st.ctr, stream_id := env.channel,
        user_id := env.user_id, username := env.username,
        content := (jget fields "content").getD "",
        created_at := st.ctr }
    let res := broadcast st.scm env.channel env.bad
    ({ st with
        scm := res.1
        dbMessages := st.dbMessages ++ [doc]
        ctr := st.ctr + 1 },
     [Action.persistA doc,
      Action.bcastA env.channel
        (OutEvent.chat doc.id env.user_id env.username doc.content
          doc.created_at)])
  else if jget fields "type" == some "reaction" then
    let res := broadcast st.scm env.channel env.bad
    ({ st with scm := res.1 },
     [Action.bcastA env.channel
        (OutEvent.reaction env.username ((jget fields "emoji").getD "❤️"))])
  else
    (st, [])

/-- The state effect of the except WebSocketDisconnect block
(server.py:913-927): disconnect, broadcast viewer_left, then write the
recomputed count into db.streams. -/
def exitState (env : SessionEnv) (st : HState) : HState :=
  let scm1 := disconnect st.scm env.channel env.ws
  let res := broadcast scm1 env.channel env.bad
  { st with
      scm := res.1
      dbStreams := updateStreamViewerCount st.dbStreams env.channel
        (get_viewer_count res.1 env.channel) }

/-- The action trace of the except WebSocketDisconnect block: the Leave,
then the viewer_left broadcast carrying the count recomputed after the
Leave, then the db.streams viewer_count update (recomputed again after
the broadcast, exactly as in the source). -/
def exitTrace (env : SessionEnv) (st : HState) : List Action :=
  let scm1 := disconnect st.scm env.channel env.ws
  let res := broadcast scm1 env.channel env.bad
  [Action.leaveA env.channel env.ws,
   Action.bcastA env.channel
     (OutEvent.viewer_left env.username (get_viewer_count scm1 env.channel)),
   Action.dbSyncA env.channel (get_viewer_count res.1 env.channel)]

/-- The while True receive loop (server.py:878-927) over a finite inbound
script.  Only WebSocketDisconnect is caught; a frame that is not valid
JSON (json.loads raises) or parses to a non-object (message_data.get
raises AttributeError) escapes the handler uncaught and no cleanup
runs. -/
def runLoop (env : SessionEnv) :
    HState → List Inbound → HState × List Action × ExitKind
  | st, [] => (st, [], ExitKind.pending)
  | st, Inbound.wsDisconnect :: _ =>
      (exitState env st, exitTrace env st, ExitKind.disconnected)
  | st, Inbound.badJson :: _ => (st, [], ExitKind.crashed)
  | st, Inbound.msg JVal.nonObj :: _ => (st, [], ExitKind.crashed)
  | st, Inbound.msg (JVal.obj fields) :: rest =>
      let r := handleObj env st fields
      let res2 := runLoop env r.1 rest
      (res2.1, r.2 ++ res2.2.1, res2.2.2)

/-- The pre-loop part of stream_chat_websocket (server.py:863-876):
connect, broadcast viewer_joined with the count taken right after the
connect, then write the count recomputed after the broadcast into
db.streams. -/
def wsOnOpen (env : SessionEnv) (st : HState) : HState × List Action :=
  let scm1 := connect st.scm env.channel env.ws
  let n1 := get_viewer_count scm1 env.channel
  let res := broadcast scm1 env.channel env.bad
  let n2 := get_viewer_count res.1 env.channel
  ({ st with
      scm := res.1
      dbStreams := updateStreamViewerCount st.dbStreams env.channel n2 },
   [Action.joinA env.channel env.ws,
    Action.bcastA env.channel (OutEvent.viewer_joined env.username n1),
    Action.dbSyncA env.channel n2])

/-- The whole websocket handler stream_chat_websocket (server.py:861-927)
run over a finite inbound script. -/
def stream_chat_websocket (env : SessionEnv) (st : HState)
    (script : List Inbound) : HState × List Action × ExitKind :=
  let p := wsOnOpen env st
  let r := runLoop env p.1 script
  (r.1, p.2 ++ r.2.1, r.2.2)

def isLeave : Action → Bool
  | Action.leaveA _ _ => true
  | _ => false

/-- Iterated loop body over a prefix of parsed objects: final state. -/
def procObjs (env : SessionEnv) (st : HState) :
    List (List (String × String)) → HState
  | [] => st
  | f :: fs => procObjs env (handleObj env st f).1 fs

/-- Iterated loop body over a prefix of parsed objects: action trace. -/
def procTrace (env : SessionEnv) (st : HState) :
    List (List (String × String)) → List Action
  | [] => []
  | f :: fs => (handleObj env st f).2 ++ procTrace env (handleObj env st f).1 fs

lemma handleObj_no_leave (env : SessionEnv) (st : HState)
    (fields : List (String × String)) :
    ∀ a ∈ (handleObj env st fields).2, isLeave a = false := by
  intro a ha
  by_cases h1 : (jget fields "type" == some "chat") = true
  · simp [handleObj, h1] at ha
    rcases ha with rfl | rfl <;> rfl
  · by_cases h2 : (jget fields "type" == some "reaction") = true
    · simp [handleObj, h1, h2] at ha
      subst ha
      rfl
    · simp [handleObj, h1, h2] at ha

lemma procTrace_no_leave (env : SessionEnv)
    (objs : List (List (String × String))) :
    ∀ st, ∀ a ∈ procTrace env st objs, isLeave a = false := by
  induction objs with
  | nil => intro st a ha; cases ha
  | cons f fs ih =>
      intro st a ha
      rcases List.mem_append.mp ha with h | h
      · exact handleObj_no_leave env st f a h
      · exact ih (handleObj env st f).1 a h

lemma runLoop_map_obj_disconnect (env : SessionEnv)
    (objs : List (List (String × String))) (rest : List Inbound) :
    ∀ st, runLoop env st
        (objs.map (fun f => Inbound.msg (JVal.obj f))
          ++ Inbound.wsDisconnect :: rest)
      = (exitState env (procObjs env st objs),
         procTrace env st objs ++ exitTrace env (procObjs env st objs),
         ExitKind.disconnected) := by
  induction objs with
  | nil =>
      intro st
      simp [runLoop, procObjs, procTrace]
  | cons f fs ih =>
      intro st
      simp only [List.map_cons, List.cons_append, runLoop, procObjs, procTrace,
        List.append_eq]
      rw [ih]
      simp

/-- C3 counterexample: the claim as stated is false on the code.  An
inbound text frame that is not valid JSON makes json.loads raise, which
the except WebSocketDisconnect clause does not catch: the handler exits
uncaught, no Leave runs, no ViewerLeft broadcast happens, and the
session is still counted (viewer count stays 1). -/
theorem exit_sequence_counterexample :
    (stream_chat_websocket
        { channel := "c", user_id := "u", username := "alice", ws := 0,
          bad := fun _ => false }
        { scm := emptyManager, dbStreams := [], dbMessages := [], ctr := 0 }
        [Inbound.badJson]).2.2 = ExitKind.crashed ∧
    ((stream_chat_websocket
        { channel := "c", user_id := "u", username := "alice", ws := 0,
          bad := fun _ => false }
        { scm := emptyManager, dbStreams := [], dbMessages := [], ctr := 0 }
        [Inbound.badJson]).2.1).filter isLeave = [] ∧
    get_viewer_count
      (stream_chat_websocket
        { channel := "c", user_id := "u", username := "alice", ws := 0,
          bad := fun _ => false }
        { scm := emptyManager, dbStreams := [], dbMessages := [], ctr := 0 }
        [Inbound.badJson]).1.scm "c" = 1 := by
  decide

/-- C3 (amended): whenever the receive loop terminates through
WebSocketDisconnect (graceful close by either side or a transport
failure surfaced as WebSocketDisconnect), after any number of processed
object events, the exit sequence runs exactly once: the trace ends with
the Leave, then the ViewerLeft broadcast carrying the count recomputed
after the Leave, then the db.streams viewer_count update, and no other
Leave occurs anywhere in the session's trace.  A processing failure
(text that is not a JSON object) instead escapes the handler without
running the exit sequence, as the counterexample shows. -/
theorem exit_sequence_once (env : SessionEnv) (st : HState)
    (objs : List (List (String × String))) (rest : List Inbound) :
    (stream_chat_websocket env st
        (objs.map (fun f => Inbound.msg (JVal.obj f))
          ++ Inbound.wsDisconnect :: rest)).2.2 = ExitKind.disconnected ∧
    ∃ pre,
      (stream_chat_websocket env st
          (objs.map (fun f => Inbound.msg (JVal.obj f))
            ++ Inbound.wsDisconnect :: rest)).2.1
        = pre ++ exitTrace env (procObjs env (wsOnOpen env st).1 objs) ∧
      (∀ a ∈ pre, isLeave a = false) ∧
      ((pre ++ exitTrace env (procObjs env (wsOnOpen env st).1 objs)).filter
          isLeave).length = 1 := by
  have hrun := runLoop_map_obj_disconnect env objs rest (wsOnOpen env st).1
  constructor
  · simp [stream_chat_websocket, hrun]
  · refine ⟨(wsOnOpen env st).2 ++ procTrace env (wsOnOpen env st).1 objs,
      ?_, ?_, ?_⟩
    · simp [stream_chat_websocket, hrun]
    · intro a ha
      rcases List.mem_append.mp ha with h | h
      · simp [wsOnOpen] at h
        rcases h with rfl | rfl | rfl <;> rfl
      · exact procTrace_no_leave env objs (wsOnOpen env st).1 a h
    · rw [List.filter_append, List.filter_append]
      have h1 : ((wsOnOpen env st).2).filter isLeave = [] := by
        simp [wsOnOpen, isLeave]
      have h2 : (procTrace env (wsOnOpen env st).1 objs).filter isLeave = [] := by
        rw [List.filter_eq_nil_iff]
        intro a ha
        simp [procTrace_no_leave env objs (wsOnOpen env st).1 a ha]
      have h3 : (exitTrace env (procObjs env (wsOnOpen env st).1 objs)).filter
          isLeave = [Action.leaveA env.channel env.ws] := by
        simp [exitTrace, isLeave]
      rw [h1, h2, h3]
      rfl

/-- C3 witness: with an empty object prefix, a WebSocketDisconnect ends
the run in the disconnected state. -/
theorem exit_sequence_once_witness :
    (stream_chat_websocket
        { channel := "c", user_id := "u", username := "alice", ws := 0,
          bad := fun _ => false }
        { scm := emptyManager, dbStreams := [], dbMessages := [], ctr := 0 }
        ([].map (fun f => Inbound.msg (JVal.obj f))
          ++ Inbound.wsDisconnect :: [])).2.2 = ExitKind.disconnected :=
  (exit_sequence_once
    { channel := "c", user_id := "u", username := "alice", ws := 0,
      bad := fun _ => false }
    { scm := emptyManager, dbStreams := [], dbMessages := [], ctr := 0 }
    [] []).1

/-- C7 counterexample: the claim as stated is false on the code.  An
inbound frame that parses to a non-object JSON value (here followed by a
well-formed chat event) is not ignored: message_data.get raises an
uncaught AttributeError, the session crashes, the following chat event
is never processed and nothing is persisted. -/
theorem malformed_event_counterexample :
    (stream_chat_websocket
        { channel := "d", user_id := "u", username := "bob", ws := 1,
          bad := fun _ => false }
        { scm := emptyManager, dbStreams := [], dbMessages := [], ctr := 0 }
        [Inbound.msg JVal.nonObj,
         Inbound.msg (JVal.obj [("type", "chat"), ("content", "hi")])]).2.2
      = ExitKind.crashed ∧
    (stream_chat_websocket
        { channel := "d", user_id := "u", username := "bob", ws := 1,
          bad := fun _ => false }
        { scm := emptyManager, dbStreams := [], dbMessages := [], ctr := 0 }
        [Inbound.msg JVal.nonObj,
         Inbound.msg (JVal.obj [("type", "chat"), ("content", "hi")])]).1.dbMessages
      = [] := by
  decide

/-- C7 (amended): for each inbound event that parses to a JSON object, a
chat-typed event persists exactly one ChatMessage and then broadcasts a
chat event carrying the persisted document's id, content and timestamp;
a reaction-typed event broadcasts username and emoji without persisting
anything; an object of any other type is ignored and the session
continues; and the loop recurses on the remaining script after each
object event.  An inbound text that is not a JSON object is not ignored:
it raises an uncaught error that terminates the session (see the
counterexample). -/
theorem inbound_event_dispatch (env : SessionEnv) (st : HState)
    (fields : List (String × String)) (rest : List Inbound) :
    (jget fields "type" = some "chat" →
      ∃ doc : MsgDoc,
        (handleObj env st fields).1.dbMessages = st.dbMessages ++ [doc] ∧
        doc.content = (jget fields "content").getD "" ∧
        doc.stream_id = env.channel ∧
        (handleObj env st fields).2 =
          [Action.persistA doc,
           Action.bcastA env.channel
             (OutEvent.chat doc.id env.user_id env.username doc.content
               doc.created_at)]) ∧
    (jget fields "type" = some "reaction" →
      (handleObj env st fields).1.dbMessages = st.dbMessages ∧
      (handleObj env st fields).2 =
        [Action.bcastA env.channel
           (OutEvent.reaction env.username ((jget fields "emoji").getD "❤️"))]) ∧
    (jget fields "type" ≠ some "chat" → jget fields "type" ≠ some "reaction" →
      handleObj env st fields = (st, [])) ∧
    (runLoop env st (Inbound.msg (JVal.obj fields) :: rest)
      = ((runLoop env (handleObj env st fields).1 rest).1,
         (handleObj env st fields).2
           ++ (runLoop env (handleObj env st fields).1 rest).2.1,
         (runLoop env (handleObj env st fields).1 rest).2.2)) := by
  refine ⟨?_, ?_, ?_, rfl⟩
  · intro h
    have hb : (jget fields "type" == some "chat") = true := by simp [h]
    refine ⟨{ id := freshMsgId st.ctr, stream_id := env.channel,
              user_id := env.user_id, username := env.username,
              content := (jget fields "content").getD "",
              created_at := st.ctr }, ?_, rfl, rfl, ?_⟩
    · simp [handleObj, hb]
    · simp [handleObj, hb]
  · intro h
    have hb : (jget fields "type" == some "chat") = false := by
      rw [beq_eq_false_iff_ne, h]
      decide
    have hb2 : (jget fields "type" == some "reaction") = true := by simp [h]
    constructor <;> simp [handleObj, hb, hb2]
  · intro h1 h2
    have hb1 : (jget fields "type" == some "chat") = false := by
      rw [beq_eq_false_iff_ne]
      exact h1
    have hb2 : (jget fields "type" == some "reaction") = false := by
      rw [beq_eq_false_iff_ne]
      exact h2
    simp [handleObj, hb1, hb2]

/-- C7 witness: a reaction event broadcasts username and emoji and
persists nothing. -/
theorem inbound_event_dispatch_witness :
    (handleObj
        { channel := "c", user_id := "u", username := "alice", ws := 0,
          bad := fun _ => false }
        { scm := emptyManager, dbStreams := [], dbMessages := [], ctr := 0 }
        [("type", "reaction"), ("emoji", "x")]).1.dbMessages = [] ∧
    (handleObj
        { channel := "c", user_id := "u", username := "alice", ws := 0,
          bad := fun _ => false }
        { scm := emptyManager, dbStreams := [], dbMessages := [], ctr := 0 }
        [("type", "reaction"), ("emoji", "x")]).2 =
      [Action.bcastA "c" (OutEvent.reaction "alice" "x")] :=
  (inbound_event_dispatch
    { channel := "c", user_id := "u", username := "alice", ws := 0,
      bad := fun _ => false }
    { scm := emptyManager, dbStreams := [], dbMessages := [], ctr := 0 }
    [("type", "reaction"), ("emoji", "x")] []).2.1 rfl

lemma handleObj_messages (env : SessionEnv) (st : HState)
    (fields : List (String × String)) :
    ∀ m ∈ (handleObj env st fields).1.dbMessages,
      m ∈ st.dbMessages ∨ m.stream_id = env.channel := by
  intro m hm
  by_cases h1 : (jget fields "type" == some "chat") = true
  · simp [handleObj, h1] at hm
    rcases hm with hm | rfl
    · exact Or.inl hm
    · exact Or.inr rfl
  · by_cases h2 : (jget fields "type" == some "reaction") = true
    · simp [handleObj, h1, h2] at hm
      exact Or.inl hm
    · simp [handleObj, h1, h2] at hm
      exact Or.inl hm

lemma runLoop_messages (env : SessionEnv) (script : List Inbound) :
    ∀ st, ∀ m ∈ (runLoop env st script).1.dbMessages,
      m ∈ st.dbMessages ∨ m.stream_id = env.channel := by
  induction script with
  | nil =>
      intro st m hm
      exact Or.inl (by simpa [runLoop] using hm)
  | cons i rest ih =>
      intro st m hm
      cases i with
      | wsDisconnect =>
          simp [runLoop, exitState] at hm
          exact Or.inl hm
      | badJson =>
          simp [runLoop] at hm
          exact Or.inl hm
      | msg j =>
          cases j with
          | nonObj =>
              simp [runLoop] at hm
              exact Or.inl hm
          | obj fields =>
              simp only [runLoop] at hm
              rcases ih (handleObj env st fields).1 m hm with hmem | hch
              · exact handleObj_messages env st fields m hmem
              · exact Or.inr hch

lemma websocket_messages (env : SessionEnv) (st : HState)
    (script : List Inbound) :
    ∀ m ∈ (stream_chat_websocket env st script).1.dbMessages,
      m ∈ st.dbMessages ∨ m.stream_id = env.channel := by
  intro m hm
  have hm' : m ∈ (runLoop env (wsOnOpen env st).1 script).1.dbMessages := by
    simpa [stream_chat_websocket] using hm
  rcases runLoop_messages env script (wsOnOpen env st).1 m hm' with h | h
  · exact Or.inl (by simpa [wsOnOpen] using h)
  · exact Or.inr h

lemma not_mem_get_stream_chat_of_ne (msgs : List MsgDoc) (sid : String)
    (limit : Nat) (m : MsgDoc) (h : m.stream_id ≠ sid) :
    m ∉ get_stream_chat msgs sid limit := by
  intro hm
  exact h (stream_id_of_mem_get_stream_chat msgs sid limit m hm).2

lemma channel_name_ne_uuid (s : String) (h : s.length = 36) :
    "stream_" ++ strTake s 8 ≠ s := by
  intro he
  have hlen : ("stream_" ++ strTake s 8).length = s.length := by rw [he]
  rw [String.length_append, strTake_length, h] at hlen
  exact absurd hlen (by decide)

/-- C8: the websocket handler persists every chat message with the
channel name, not the stream document's id, in the stream_id field
(server.py:887 stores channel_name); since create_stream derives the
channel name as the string stream_ plus eight characters of the uuid,
the channel name never equals the 36-character uuid id of the stream
document.  Hence the history round trip works exactly when
get_stream_chat is queried with the channel name: every message appended
during a session on channel c is returned by get_stream_chat(c)
(whenever the channel's history fits the limit), and a query by any
other key, in particular the stream document's id, returns none of the
session's messages. -/
theorem chat_history_key_roundtrip (env : SessionEnv) (st : HState)
    (script : List Inbound) (limit : Nat) :
    (∀ (dbS : List StreamDoc) (user : UserDoc) (title : String)
        (descr : Option String) (freshId : String) (now : Nat)
        (dbS' : List StreamDoc) (doc : StreamDoc),
      freshId.length = 36 →
      create_stream dbS user title descr freshId now = (dbS', Except.ok doc) →
      doc.id ≠ doc.channel_name) ∧
    (∀ m ∈ (stream_chat_websocket env st script).1.dbMessages,
      m ∉ st.dbMessages → m.stream_id = env.channel) ∧
    (∀ m ∈ (stream_chat_websocket env st script).1.dbMessages,
      m ∉ st.dbMessages →
      ((stream_chat_websocket env st script).1.dbMessages.filter
          (fun x => x.stream_id == env.channel)).length ≤ limit →
      m ∈ get_stream_chat (stream_chat_websocket env st script).1.dbMessages
            env.channel limit) ∧
    (∀ sid, sid ≠ env.channel →
      ∀ m ∈ (stream_chat_websocket env st script).1.dbMessages,
        m ∉ st.dbMessages →
        m ∉ get_stream_chat (stream_chat_websocket env st script).1.dbMessages
              sid limit) := by
  have hkey : ∀ m ∈ (stream_chat_websocket env st script).1.dbMessages,
      m ∉ st.dbMessages → m.stream_id = env.channel := by
    intro m hm hnot
    rcases websocket_messages env st script m hm with h | h
    · exact absurd h hnot
    · exact h
  refine ⟨?_, hkey, ?_, ?_⟩
  · intro dbS user title descr freshId now dbS' doc hlen heq
    by_cases hb : user.is_banned = true
    · simp [create_stream, hb] at heq
    · rw [Bool.not_eq_true] at hb
      cases hfind : dbS.find? (fun s => s.host_id == user.id && s.is_live) with
      | some st' => simp [create_stream, hb, hfind] at heq
      | none =>
          simp [create_stream, hb, hfind] at heq
          rw [← heq.2]
          intro hc
          exact channel_name_ne_uuid freshId hlen hc.symm
  · intro m hm hnot hlim
    exact mem_get_stream_chat_of_le _ env.channel limit m hm
      (hkey m hm hnot) hlim
  · intro sid hsid m hm hnot
    apply not_mem_get_stream_chat_of_ne
    rw [hkey m hm hnot]
    exact fun hc => hsid hc.symm

/-- C8 witness: one chat message sent on channel c is retrieved by the
channel name but not by the stream document id s1. -/
theorem chat_history_key_roundtrip_witness :
    { id := "uuid-0", stream_id := "c", user_id := "u", username := "alice",
      content := "hi", created_at := 0 : MsgDoc }
      ∈ get_stream_chat
          (stream_chat_websocket
            { channel := "c", user_id := "u", username := "alice", ws := 0,
              bad := fun _ => false }
            { scm := emptyManager, dbStreams := [], dbMessages := [], ctr := 0 }
            [Inbound.msg (JVal.obj [("type", "chat"), ("content", "hi")])]).1.dbMessages
          "c" 50 ∧
    { id := "uuid-0", stream_id := "c", user_id := "u", username := "alice",
      content := "hi", created_at := 0 : MsgDoc }
      ∉ get_stream_chat
          (stream_chat_websocket
            { channel := "c", user_id := "u", username := "alice", ws := 0,
              bad := fun _ => false }
            { scm := emptyManager, dbStreams := [], dbMessages := [], ctr := 0 }
            [Inbound.msg (JVal.obj [("type", "chat"), ("content", "hi")])]).1.dbMessages
          "s1" 50 :=
  ⟨(chat_history_key_roundtrip
      { channel := "c", user_id := "u", username := "alice", ws := 0,
        bad := fun _ => false }
      { scm := emptyManager, dbStreams := [], dbMessages := [], ctr := 0 }
      [Inbound.msg (JVal.obj [("type", "chat"), ("content", "hi")])] 50).2.2.1
    { id := "uuid-0", stream_id := "c", user_id := "u", username := "alice",
      content := "hi", created_at := 0 }
    (by decide) (by decide) (by decide),
   (chat_history_key_roundtrip
      { channel := "c", user_id := "u", username := "alice", ws := 0,
        bad := fun _ => false }
      { scm := emptyManager, dbStreams := [], dbMessages := [], ctr := 0 }
      [Inbound.msg (JVal.obj [("type", "chat"), ("content", "hi")])] 50).2.2.2
    "s1" (by decide)
    { id := "uuid-0", stream_id := "c", user_id := "u", username := "alice",
      content := "hi", created_at := 0 }
    (by decide) (by decide)⟩

end SayHelo
